import Mathlib

/-!
Shallow embedding of `s29011_2025-2.py` (NCBI nucleotide retriever).

The program paginates through a remote search result set in batches of at
most 500 records, with a fixed inter-batch delay, then writes a CSV report
and a descending-length plot.  We embed each component as a pure Lean
function over explicit state, with the remote service modelled as an
oracle parameter, and prove the spec's claims about them.
-/

namespace PBIO2

/-- A parsed sequence record: accession id, sequence length, description.
Models the fields of `SeqIO.SeqRecord` that the program reads
(`r.id`, `len(r.seq)`, `r.description`). -/
structure Record where
  id : String
  seqLen : Nat
  description : String
deriving DecidableEq, Repr, Inhabited

/-- Mutable fields of `NCBIRetriever` set in `__init__` (lines 22-24):
`self.webenv = None`, `self.query_key = None`, `self.count = 0`. -/
structure RetrieverState where
  webenv : Option String
  query_key : Option String
  count : Int
deriving DecidableEq, Repr

/-- The freshly constructed retriever (`NCBIRetriever.__init__`). -/
def initRetriever : RetrieverState := ⟨none, none, 0⟩

/-- Error taxonomy from the spec.  In the source, `notInitialized` is the
`RuntimeError("error")` raised by `_fetch_batch` (line 42), and
`sessionError` is the exception propagating out of `search` when the
remote call errors or the response lacks a key. -/
inductive RetrieverError where
  | notInitialized
  | sessionError
deriving DecidableEq, Repr

/-- `remaining = self.count if limit is None else min(limit, self.count)`
(line 57 of `fetch_all`). -/
def effectiveCount (count : Int) (limit : Option Int) : Int :=
  match limit with
  | none => count
  | some l => min l count

/-- The sequence of `(retstart, retmax)` windows requested by the
`while remaining > 0` loop of `fetch_all` (lines 58-64):
`batch = min(remaining, 500)`, then `remaining -= batch; start += batch`. -/
def batchWindows (remaining start : Int) : List (Int × Int) :=
  if _h : remaining > 0 then
    let batch := min remaining 500
    (start, batch) :: batchWindows (remaining - batch) (start + batch)
  else []
termination_by remaining.toNat
decreasing_by
  omega

/-- The windows requested by `fetch_all(limit)` on a retriever whose
stored count is `count`: the loop starts at offset 0. -/
def fetchAllWindows (count : Int) (limit : Option Int) : List (Int × Int) :=
  batchWindows (effectiveCount count limit) 0

/-- One observable event of the `fetch_all` loop body: a `_fetch_batch`
call or a `time.sleep(delay)` call. -/
inductive FetchEvent where
  | batchCall (start size : Int)
  | sleep
deriving DecidableEq, Repr

/-- The event trace of the `fetch_all` loop (lines 58-65): each iteration
issues one batch call and then sleeps unconditionally (line 65 is inside
the loop body, not guarded by `remaining > 0` after the decrement). -/
def fetchLoopEvents (remaining start : Int) : List FetchEvent :=
  if _h : remaining > 0 then
    let batch := min remaining 500
    FetchEvent.batchCall start batch :: FetchEvent.sleep ::
      fetchLoopEvents (remaining - batch) (start + batch)
  else []
termination_by remaining.toNat
decreasing_by
  omega

/-- Event trace of a full `fetch_all(limit)` run. -/
def fetchAllEvents (count : Int) (limit : Option Int) : List FetchEvent :=
  fetchLoopEvents (effectiveCount count limit) 0

/-- Number of `_fetch_batch` calls issued by `fetch_all`. -/
def numBatchCalls (count : Int) (limit : Option Int) : Nat :=
  (fetchAllEvents count limit).countP fun e =>
    match e with
    | FetchEvent.batchCall _ _ => true
    | FetchEvent.sleep => false

/-- Number of `time.sleep` calls issued by `fetch_all`. -/
def numSleeps (count : Int) (limit : Option Int) : Nat :=
  (fetchAllEvents count limit).countP fun e =>
    match e with
    | FetchEvent.batchCall _ _ => false
    | FetchEvent.sleep => true

/-- The query string built by `search` (lines 27-31):
`query = f"txid{taxid}[Organism]"`, then if either bound is given,
`_min = min_len if min_len is not None else 1`,
`_max = max_len if max_len is not None else 1_000_000_000`,
`query += f" AND {_min}:{_max}[SLEN]"`. -/
def buildQuery (taxid : String) (min_len max_len : Option Int) : String :=
  let base := "txid" ++ taxid ++ "[Organism]"
  match min_len, max_len with
  | none, none => base
  | _, _ =>
    let lo := match min_len with
      | some v => v
      | none => 1
    let hi := match max_len with
      | some v => v
      | none => 1000000000
    base ++ " AND " ++ toString lo ++ ":" ++ toString hi ++ "[SLEN]"

/-- The raw `esearch` response as read by `search`: each field the code
indexes (`res["WebEnv"]`, `res["QueryKey"]`, `int(res["Count"])`) is
`none` when missing or unparseable. -/
structure RawResponse where
  webEnv : Option String
  queryKey : Option String
  count : Option Int
deriving DecidableEq, Repr

/-- `search` (lines 33-39), with the remote call modelled by its outcome
`resp` (`none` = the call itself raised).  The code assigns
`self.webenv`, then `self.query_key`, then `self.count` in order, so a
response missing a later key leaves the earlier assignments in place.
Returns the updated state and either the count or the propagated
exception (`sessionError`). -/
def search (st : RetrieverState) (resp : Option RawResponse) :
    RetrieverState × Except RetrieverError Int :=
  match resp with
  | none => (st, Except.error RetrieverError.sessionError)
  | some r =>
    match r.webEnv with
    | none => (st, Except.error RetrieverError.sessionError)
    | some w =>
      let st1 := { st with webenv := some w }
      match r.queryKey with
      | none => (st1, Except.error RetrieverError.sessionError)
      | some k =>
        let st2 := { st1 with query_key := some k }
        match r.count with
        | none => (st2, Except.error RetrieverError.sessionError)
        | some c => ({ st2 with count := c }, Except.ok c)

/-- `_fetch_batch` (lines 41-54): raises (`RuntimeError("error")`,
modelled as `notInitialized`) when `self.webenv is None or
self.query_key is None`, before any remote call; otherwise issues one
`efetch` call, modelled by the oracle.  The second component counts
remote calls issued. -/
def fetchBatch (st : RetrieverState) (oracle : Int → Int → List Record)
    (start size : Int) : Except RetrieverError (List Record) × Nat :=
  if st.webenv.isNone || st.query_key.isNone then
    (Except.error RetrieverError.notInitialized, 0)
  else
    (Except.ok (oracle start size), 1)

/-- The `while remaining > 0` loop of `fetch_all` (lines 58-65) run for
real: each iteration calls `_fetch_batch(start, batch)` and forwards its
records.  Returns the concatenated records (or the first error) paired
with the total number of remote calls issued. -/
def fetchRunLoop (st : RetrieverState) (oracle : Int → Int → List Record)
    (remaining start : Int) : Except RetrieverError (List Record) × Nat :=
  if _h : remaining > 0 then
    let batch := min remaining 500
    match fetchBatch st oracle start batch with
    | (Except.error e, n) => (Except.error e, n)
    | (Except.ok recs, n) =>
      match fetchRunLoop st oracle (remaining - batch) (start + batch) with
      | (Except.error e, m) => (Except.error e, n + m)
      | (Except.ok rest, m) => (Except.ok (recs ++ rest), n + m)
  else (Except.ok [], 0)
termination_by remaining.toNat
decreasing_by
  omega

/-- `fetch_all(limit)` (lines 56-65) on state `st`, with the remote
fetch modelled by `oracle`: list of records produced (or first error),
paired with the number of remote calls issued. -/
def fetch_all (st : RetrieverState) (oracle : Int → Int → List Record)
    (limit : Option Int) : Except RetrieverError (List Record) × Nat :=
  fetchRunLoop st oracle (effectiveCount st.count limit) 0

/-- `write_csv` (lines 67-72) as the sequence of rows written: first
`w.writerow(["Accession", "Length", "Description"])`, then one
`w.writerow([r.id, len(r.seq), r.description])` per record, in loop
order. -/
def write_csv_rows (records : List Record) : List (List String) :=
  records.foldl
    (fun rows r => rows ++ [[r.id, toString r.seqLen, r.description]])
    [["Accession", "Length", "Description"]]

/-- Models Python's `sorted(records, key=lambda r: len(r.seq),
reverse=True)` (line 76), which is a stable descending sort: insert the
element after every element of strictly greater length and before the
rest, so equal lengths keep their original relative order. -/
def insertDesc (r : Record) : List Record → List Record
  | [] => [r]
  | x :: xs => if r.seqLen < x.seqLen then x :: insertDesc r xs else r :: x :: xs

/-- Stable descending-by-length sort of the record list (line 76). -/
def sortDesc : List Record → List Record
  | [] => []
  | x :: xs => insertDesc x (sortDesc xs)

/-- `plot_lengths` (lines 75-89) as the data it plots: the x-axis labels
(`accs`, accession ids) and y-values (`lengths`) taken from
`sorted_recs`. -/
def plot_lengths_data (records : List Record) : List String × List Nat :=
  let sorted_recs := sortDesc records
  (sorted_recs.map Record.id, sorted_recs.map Record.seqLen)

/-- One observable effect of `main` after the search returned: a printed
message, a written artifact, or a `sys.exit` call. -/
inductive Effect where
  | printLine (msg : String)
  | writeCsvFile (path : String) (rows : List (List String))
  | writePlotFile (path : String) (labels : List String) (lengths : List Nat)
  | exitWith (code : Nat)
deriving DecidableEq, Repr

/-- The tail of `main` (lines 119-134) given the search result `total`
and the records realized from `fetch_all`: `total == 0` prints
"Not found" and exits 0; an empty record list prints "Download failed"
and exits 1; otherwise the CSV and the plot are written and their paths
echoed.  `taxid` and `timestamp` determine the artifact paths
`taxid_<id>_<timestamp>.csv` / `.png` (lines 113-116). -/
def mainEffects (taxid timestamp : String) (total : Int)
    (records : List Record) : List Effect :=
  let stem := "taxid_" ++ taxid ++ "_" ++ timestamp
  let csv_file := stem ++ ".csv"
  let png_file := stem ++ ".png"
  if total = 0 then
    [Effect.printLine "Not found", Effect.exitWith 0]
  else if records.isEmpty then
    [Effect.printLine "Download failed", Effect.exitWith 1]
  else
    [Effect.writeCsvFile csv_file (write_csv_rows records),
     Effect.printLine ("CSV report saved -> " ++ csv_file),
     Effect.writePlotFile png_file (plot_lengths_data records).1
       (plot_lengths_data records).2,
     Effect.printLine ("Length plot saved -> " ++ png_file ++ "\n")]

/-! ### Lemmas about the batch-window loop -/

theorem batchWindows_length (remaining start : Int) :
    (batchWindows remaining start).length = (remaining.toNat + 499) / 500 := by
  induction remaining, start using batchWindows.induct with
  | case1 remaining start h batch ih =>
    rw [batchWindows]
    simp only [h, dite_true, List.length_cons]
    rw [ih]
    omega
  | case2 remaining start h =>
    rw [batchWindows]
    simp only [h, dite_false, List.length_nil]
    omega

theorem batchWindows_sum (remaining start : Int) :
    ((batchWindows remaining start).map Prod.snd).sum = max remaining 0 := by
  induction remaining, start using batchWindows.induct with
  | case1 remaining start h batch ih =>
    rw [batchWindows]
    simp only [h, dite_true, List.map_cons, List.sum_cons]
    rw [ih]
    omega
  | case2 remaining start h =>
    rw [batchWindows]
    simp only [h, dite_false, List.map_nil, List.sum_nil]
    omega

theorem batchWindows_head (remaining start : Int) (p : Int × Int)
    (hp : (batchWindows remaining start).head? = some p) : p.1 = start := by
  rw [batchWindows] at hp
  by_cases h : remaining > 0
  · simp only [h, dite_true, List.head?_cons, Option.some.injEq] at hp
    rw [← hp]
  · simp [h] at hp

theorem batchWindows_chain (remaining start : Int) :
    List.Chain' (fun p q : Int × Int => q.1 = p.1 + p.2)
      (batchWindows remaining start) := by
  induction remaining, start using batchWindows.induct with
  | case1 remaining start h batch ih =>
    rw [batchWindows]
    simp only [h, dite_true]
    rw [List.chain'_cons']
    refine ⟨?_, ih⟩
    intro q hq
    have := batchWindows_head _ _ q hq
    simp [this]
  | case2 remaining start h =>
    rw [batchWindows]
    simp [h]

/-! ### Lemmas about the stable descending sort -/

theorem insertDesc_perm (r : Record) (l : List Record) :
    List.Perm (insertDesc r l) (r :: l) := by
  induction l with
  | nil => rfl
  | cons x xs ih =>
    unfold insertDesc
    by_cases h : r.seqLen < x.seqLen
    · simp only [h, if_true]
      exact (ih.cons x).trans (List.Perm.swap r x xs)
    · simp [h]

theorem sortDesc_perm (l : List Record) : List.Perm (sortDesc l) l := by
  induction l with
  | nil => rfl
  | cons x xs ih =>
    unfold sortDesc
    exact (insertDesc_perm x (sortDesc xs)).trans (ih.cons x)

theorem insertDesc_pairwise (r : Record) (l : List Record)
    (hl : l.Pairwise fun a b => b.seqLen ≤ a.seqLen) :
    (insertDesc r l).Pairwise fun a b => b.seqLen ≤ a.seqLen := by
  induction l with
  | nil => simp [insertDesc]
  | cons x xs ih =>
    rw [List.pairwise_cons] at hl
    obtain ⟨hx, hxs⟩ := hl
    unfold insertDesc
    by_cases h : r.seqLen < x.seqLen
    · simp only [h, if_true]
      rw [List.pairwise_cons]
      refine ⟨?_, ih hxs⟩
      intro b hb
      rw [(insertDesc_perm r xs).mem_iff, List.mem_cons] at hb
      rcases hb with rfl | hb
      · omega
      · exact hx b hb
    · simp only [h, if_false]
      rw [List.pairwise_cons]
      refine ⟨?_, List.pairwise_cons.mpr ⟨hx, hxs⟩⟩
      intro b hb
      rw [List.mem_cons] at hb
      rcases hb with rfl | hb
      · omega
      · have := hx b hb
        omega

theorem sortDesc_pairwise (l : List Record) :
    (sortDesc l).Pairwise fun a b => b.seqLen ≤ a.seqLen := by
  induction l with
  | nil => simp [sortDesc]
  | cons x xs ih =>
    unfold sortDesc
    exact insertDesc_pairwise x (sortDesc xs) ih

theorem insertDesc_filter (n : Nat) (r : Record) (l : List Record) :
    (insertDesc r l).filter (fun x => x.seqLen == n) =
      if r.seqLen = n then r :: l.filter (fun x => x.seqLen == n)
      else l.filter (fun x => x.seqLen == n) := by
  induction l with
  | nil =>
    by_cases hr : r.seqLen = n <;>
      simp [insertDesc, List.filter_singleton, beq_iff_eq, hr]
  | cons x xs ih =>
    unfold insertDesc
    by_cases h : r.seqLen < x.seqLen
    · simp only [h, if_true, List.filter_cons]
      rw [ih]
      by_cases hr : r.seqLen = n
      · have hx : (x.seqLen == n) = false := by
          simp only [beq_eq_false_iff_ne, ne_eq]
          omega
        simp [hr, hx]
      · simp [hr]
    · simp only [h, if_false, List.filter_cons]
      by_cases hr : r.seqLen = n <;> simp [hr]

theorem sortDesc_filter (n : Nat) (l : List Record) :
    (sortDesc l).filter (fun x => x.seqLen == n) =
      l.filter (fun x => x.seqLen == n) := by
  induction l with
  | nil => simp [sortDesc]
  | cons x xs ih =>
    unfold sortDesc
    rw [insertDesc_filter, List.filter_cons]
    by_cases hx : x.seqLen = n <;> simp [hx, ih]

/-! ### Lemmas about the running fetch loop -/

theorem fetchRunLoop_ok (st : RetrieverState) (oracle : Int → Int → List Record)
    (hw : st.webenv.isSome) (hk : st.query_key.isSome)
    (horacle : ∀ s b, (oracle s b).length = b.toNat)
    (remaining start : Int) :
    ∃ l, fetchRunLoop st oracle remaining start =
        (Except.ok l, (batchWindows remaining start).length) ∧
      l.length = remaining.toNat := by
  induction remaining, start using batchWindows.induct with
  | case1 remaining start h batch ih =>
    obtain ⟨l, hl, hlen⟩ := ih
    obtain ⟨w, hwv⟩ := Option.isSome_iff_exists.mp hw
    obtain ⟨k, hkv⟩ := Option.isSome_iff_exists.mp hk
    have hfb : fetchBatch st oracle start (min remaining 500) =
        (Except.ok (oracle start (min remaining 500)), 1) := by
      simp [fetchBatch, hwv, hkv]
    rw [fetchRunLoop, batchWindows]
    simp only [h, dite_true, hfb, hl, List.length_cons]
    refine ⟨oracle start (min remaining 500) ++ l, ?_, ?_⟩
    · rw [Nat.add_comm]
    · rw [List.length_append, horacle, hlen]
      omega
  | case2 remaining start h =>
    rw [fetchRunLoop, batchWindows]
    simp only [h, dite_false]
    refine ⟨[], by simp, ?_⟩
    simp only [List.length_nil]
    omega

/-! ### Lemmas about the fetch event trace -/

theorem fetchLoopEvents_sleep_count (remaining start : Int) :
    ((fetchLoopEvents remaining start).countP fun e =>
      match e with
      | FetchEvent.batchCall _ _ => false
      | FetchEvent.sleep => true) =
    ((fetchLoopEvents remaining start).countP fun e =>
      match e with
      | FetchEvent.batchCall _ _ => true
      | FetchEvent.sleep => false) := by
  induction remaining, start using fetchLoopEvents.induct with
  | case1 remaining start h batch ih =>
    rw [fetchLoopEvents]
    simp only [h, dite_true, List.countP_cons]
    simp [ih]
  | case2 remaining start h =>
    rw [fetchLoopEvents]
    simp [h]

theorem fetchLoopEvents_getLast (remaining start : Int) :
    fetchLoopEvents remaining start = [] ∨
    (fetchLoopEvents remaining start).getLast? = some FetchEvent.sleep := by
  induction remaining, start using fetchLoopEvents.induct with
  | case1 remaining start h batch ih =>
    right
    rw [fetchLoopEvents]
    simp only [h, dite_true]
    rcases ih with hnil | hlast
    · rw [hnil]
      rfl
    · rw [List.getLast?_cons_cons]
      cases hev : fetchLoopEvents (remaining - min remaining 500)
          (start + min remaining 500) with
      | nil => simp [hev] at hlast
      | cons y ys =>
        rw [hev] at hlast
        rw [List.getLast?_cons_cons, hlast]
  | case2 remaining start h =>
    left
    rw [fetchLoopEvents]
    simp [h]

theorem fetchLoopEvents_length (remaining start : Int) :
    ((fetchLoopEvents remaining start).countP fun e =>
      match e with
      | FetchEvent.batchCall _ _ => true
      | FetchEvent.sleep => false) = (batchWindows remaining start).length := by
  induction remaining, start using fetchLoopEvents.induct with
  | case1 remaining start h batch ih =>
    rw [fetchLoopEvents, batchWindows]
    simp only [h, dite_true, List.countP_cons, List.length_cons]
    simp [ih]
  | case2 remaining start h =>
    rw [fetchLoopEvents, batchWindows]
    simp [h]

/-! ### Lemma about the CSV writer loop -/

theorem write_csv_foldl (records : List Record) (acc : List (List String)) :
    records.foldl
      (fun rows r => rows ++ [[r.id, toString r.seqLen, r.description]])
      acc =
    acc ++ records.map (fun r => [r.id, toString r.seqLen, r.description]) := by
  induction records generalizing acc with
  | nil => simp
  | cons x xs ih => simp [ih]

/-! ### Claim theorems -/

/-- C1: for every non-negative total count and every optional
non-negative limit, `fetch_all` issues exactly
`ceil(min(limit, total_count) / 500)` batch calls (the effective count
being `total_count` when the limit is absent), issues zero calls iff
that effective count is zero, and, when each batch call yields exactly
the requested number of records, the total number of records yielded
equals the effective count; in particular `total_count = 1200` with no
limit gives 3 batches of sizes 500, 500, 200 at offsets 0, 500, 1000. -/
theorem claim1_fetchAll_batching (st : RetrieverState)
    (oracle : Int → Int → List Record) (limit : Option Int)
    (hc : 0 ≤ st.count) (hl : ∀ l, limit = some l → 0 ≤ l)
    (hw : st.webenv.isSome) (hk : st.query_key.isSome)
    (horacle : ∀ s b, (oracle s b).length = b.toNat) :
    (fetchAllWindows st.count limit).length =
      ((effectiveCount st.count limit).toNat + 499) / 500 ∧
    ((fetchAllWindows st.count limit).length = 0 ↔
      effectiveCount st.count limit = 0) ∧
    ((fetchAllWindows st.count limit).map Prod.snd).sum =
      effectiveCount st.count limit ∧
    (∃ recs, fetch_all st oracle limit =
        (Except.ok recs, (fetchAllWindows st.count limit).length) ∧
      recs.length = (effectiveCount st.count limit).toNat) ∧
    fetchAllWindows 1200 none = [(0, 500), (500, 500), (1000, 200)] := by
  have heff : 0 ≤ effectiveCount st.count limit := by
    cases hlim : limit with
    | none => simpa [effectiveCount] using hc
    | some l =>
      have := hl l hlim
      simp only [hlim, effectiveCount]
      omega
  refine ⟨?_, ?_, ?_, ?_, ?_⟩
  · exact batchWindows_length _ _
  · rw [fetchAllWindows, batchWindows_length]
    omega
  · rw [fetchAllWindows, batchWindows_sum]
    omega
  · exact fetchRunLoop_ok st oracle hw hk horacle _ _
  · simp [fetchAllWindows, effectiveCount, batchWindows]

/-- Witness for C1 at `total_count = 1200`, no limit, with a session
present and an oracle returning exactly the requested number of
records. -/
theorem claim1_fetchAll_batching_witness :
    (fetchAllWindows (⟨some "W", some "Q", 1200⟩ : RetrieverState).count
        none).length =
      ((effectiveCount
          (⟨some "W", some "Q", 1200⟩ : RetrieverState).count none).toNat
        + 499) / 500 ∧
    ((fetchAllWindows (⟨some "W", some "Q", 1200⟩ : RetrieverState).count
        none).length = 0 ↔
      effectiveCount (⟨some "W", some "Q", 1200⟩ : RetrieverState).count
        none = 0) ∧
    ((fetchAllWindows (⟨some "W", some "Q", 1200⟩ : RetrieverState).count
        none).map Prod.snd).sum =
      effectiveCount (⟨some "W", some "Q", 1200⟩ : RetrieverState).count
        none ∧
    (∃ recs, fetch_all (⟨some "W", some "Q", 1200⟩ : RetrieverState)
        (fun _ b => List.replicate b.toNat ⟨"AB000001.1", 5, "demo"⟩) none =
        (Except.ok recs,
          (fetchAllWindows
            (⟨some "W", some "Q", 1200⟩ : RetrieverState).count
            none).length) ∧
      recs.length = (effectiveCount
        (⟨some "W", some "Q", 1200⟩ : RetrieverState).count none).toNat) ∧
    fetchAllWindows 1200 none = [(0, 500), (500, 500), (1000, 200)] :=
  claim1_fetchAll_batching ⟨some "W", some "Q", 1200⟩
    (fun _ b => List.replicate b.toNat ⟨"AB000001.1", 5, "demo"⟩) none
    (by decide) (fun l h => by cases h) rfl rfl
    (fun s b => by simp)

/-- C2 counterexample: with `total_count = 1200` and `limit = 300` the
code issues exactly one batch call but still invokes `time.sleep` once —
not `1 - 1 = 0` times as the claim states, because line 65 sleeps
unconditionally inside the loop body, including after the final batch. -/
theorem claim2_counterexample :
    numBatchCalls 1200 (some 300) = 1 ∧ numSleeps 1200 (some 300) = 1 ∧
    numSleeps 1200 (some 300) ≠ numBatchCalls 1200 (some 300) - 1 := by
  refine ⟨?_, ?_, ?_⟩ <;>
    simp [numBatchCalls, numSleeps, fetchAllEvents, effectiveCount,
      fetchLoopEvents]

/-- C2 (amended): the delay is invoked exactly once per batch call —
`n` times for `n` batches, including after the final batch (the trace
ends with a sleep whenever it is nonempty); in particular
`total_count = 1200` with `limit = 300` issues one batch of size 300 at
offset 0 and invokes the delay once. -/
theorem claim2_amended_sleep_count (count : Int) (limit : Option Int) :
    numSleeps count limit = numBatchCalls count limit ∧
    (fetchAllEvents count limit = [] ∨
      (fetchAllEvents count limit).getLast? = some FetchEvent.sleep) ∧
    fetchAllEvents 1200 (some 300) =
      [FetchEvent.batchCall 0 300, FetchEvent.sleep] := by
  refine ⟨fetchLoopEvents_sleep_count _ _, fetchLoopEvents_getLast _ _, ?_⟩
  simp [fetchAllEvents, effectiveCount, fetchLoopEvents]

/-- C3: the batch windows requested by any `fetch_all` run are
contiguous and non-overlapping — the first window starts at offset 0 and
each next window's start offset is the previous start offset plus the
previous batch size. -/
theorem claim3_windows_contiguous (count : Int) (limit : Option Int) :
    ((fetchAllWindows count limit).headD (0, 0)).1 = 0 ∧
    List.Chain' (fun p q : Int × Int => q.1 = p.1 + p.2)
      (fetchAllWindows count limit) := by
  constructor
  · rw [List.headD_eq_head?]
    cases hh : (fetchAllWindows count limit).head? with
    | none => rfl
    | some p =>
      have := batchWindows_head _ _ p hh
      simpa using this
  · exact batchWindows_chain _ _

/-- C4: on a retriever without an established session (`webenv` or
`query_key` still `None`), `_fetch_batch` fails with the use-before-search
error and issues no remote call. -/
theorem claim4_fetch_before_search (st : RetrieverState)
    (oracle : Int → Int → List Record) (start size : Int)
    (h : st.webenv = none ∨ st.query_key = none) :
    fetchBatch st oracle start size =
      (Except.error RetrieverError.notInitialized, 0) := by
  rcases h with h | h <;> simp [fetchBatch, h]

/-- Witness for C4 on the freshly constructed retriever. -/
theorem claim4_fetch_before_search_witness :
    fetchBatch initRetriever (fun _ _ => []) 0 500 =
      (Except.error RetrieverError.notInitialized, 0) :=
  claim4_fetch_before_search initRetriever (fun _ _ => []) 0 500 (Or.inl rfl)

/-- C5: `search` fails with the session error both when the remote call
itself errors and when the response is malformed (missing the session
token, the query key, or the count), and this failure is distinct from
the non-error outcome of a well-formed response with a zero count, which
returns `0` normally. -/
theorem claim5_search_session_error (st : RetrieverState) (r : RawResponse)
    (h : r.webEnv = none ∨ r.queryKey = none ∨ r.count = none) :
    (search st none).2 = Except.error RetrieverError.sessionError ∧
    (search st (some r)).2 = Except.error RetrieverError.sessionError ∧
    (∀ w k, (search st (some ⟨some w, some k, some 0⟩)).2 = Except.ok 0) ∧
    (∀ c : Int, (Except.ok c : Except RetrieverError Int) ≠
      Except.error RetrieverError.sessionError) := by
  obtain ⟨we, qk, ct⟩ := r
  refine ⟨rfl, ?_, fun w k => rfl, fun c => by simp⟩
  simp only at h
  rcases h with h | h | h <;> subst h
  · rfl
  · cases we <;> rfl
  · cases we <;> cases qk <;> rfl

/-- Witness for C5 on a fully malformed response. -/
theorem claim5_search_session_error_witness :
    (search initRetriever none).2 =
      Except.error RetrieverError.sessionError ∧
    (search initRetriever (some ⟨none, none, none⟩)).2 =
      Except.error RetrieverError.sessionError ∧
    (∀ w k,
      (search initRetriever (some ⟨some w, some k, some 0⟩)).2 =
        Except.ok 0) ∧
    (∀ c : Int, (Except.ok c : Except RetrieverError Int) ≠
      Except.error RetrieverError.sessionError) :=
  claim5_search_session_error initRetriever ⟨none, none, none⟩ (Or.inl rfl)

/-- C6: on a freshly constructed retriever (count 0, no session),
`fetch_all` with any limit yields no records, raises no error, and
issues no batch call at all — the use-before-search guard is never
reached because the remaining count is already zero. -/
theorem claim6_fetchAll_fresh (oracle : Int → Int → List Record)
    (limit : Option Int) :
    fetch_all initRetriever oracle limit = (Except.ok [], 0) := by
  rw [fetch_all, fetchRunLoop]
  have h : ¬ effectiveCount initRetriever.count limit > 0 := by
    cases limit <;> simp [effectiveCount, initRetriever]
  simp [h]

/-- C7: the query built by `search` is `txid<ID>[Organism]`; no length
clause is appended when both bounds are absent; when a bound is absent
its default (1 below, 1000000000 above) is substituted; when both are
present they are used as-is — the fourth equation holds for all pairs,
inverted ones included, so no validation occurs. -/
theorem claim7_query_string (taxid : String) (a b : Int) :
    buildQuery taxid none none = "txid" ++ taxid ++ "[Organism]" ∧
    buildQuery taxid (some a) none =
      "txid" ++ taxid ++ "[Organism]" ++ " AND " ++ toString a ++ ":" ++
        "1000000000" ++ "[SLEN]" ∧
    buildQuery taxid none (some b) =
      "txid" ++ taxid ++ "[Organism]" ++ " AND " ++ "1" ++ ":" ++
        toString b ++ "[SLEN]" ∧
    buildQuery taxid (some a) (some b) =
      "txid" ++ taxid ++ "[Organism]" ++ " AND " ++ toString a ++ ":" ++
        toString b ++ "[SLEN]" :=
  ⟨rfl, rfl, rfl, rfl⟩

/-- C8: the ordering used by the length plotter is non-increasing in
sequence length over the whole output, and the sort is stable — records
of each given length appear in their original relative order (their
filtered subsequence is unchanged), and the output is a permutation of
the input. -/
theorem claim8_plot_order (records : List Record) :
    List.Pairwise (fun a b : Nat => b ≤ a) (plot_lengths_data records).2 ∧
    List.Pairwise (fun a b : Record => b.seqLen ≤ a.seqLen)
      (sortDesc records) ∧
    (∀ n : Nat, (sortDesc records).filter (fun r => r.seqLen == n) =
      records.filter (fun r => r.seqLen == n)) ∧
    List.Perm (sortDesc records) records := by
  refine ⟨?_, sortDesc_pairwise records, fun n => sortDesc_filter n records,
    sortDesc_perm records⟩
  have hp := sortDesc_pairwise records
  simpa [plot_lengths_data] using
    List.Pairwise.map Record.seqLen (fun a b hab => hab) hp

/-- C9: the CSV report consists of the header row
`Accession, Length, Description` followed by one row per record, with
accession id, length and description, in exactly the input order; hence
`n + 1` rows for `n` records. -/
theorem claim9_csv_rows (records : List Record) :
    write_csv_rows records =
      ["Accession", "Length", "Description"] ::
        records.map (fun r => [r.id, toString r.seqLen, r.description]) ∧
    (write_csv_rows records).length = records.length + 1 := by
  have h := write_csv_foldl records [["Accession", "Length", "Description"]]
  rw [write_csv_rows] at *
  constructor
  · rw [h]
    rfl
  · rw [h]
    simp

/-- C10: after the search, `main` prints an informational message and
exits with status 0 on zero matches; exits with the distinct non-zero
status 1 when matches were found but no record was retrieved; and
otherwise writes the CSV and the plot artifact and echoes both paths. -/
theorem claim10_main_exit (taxid timestamp : String) (total : Int)
    (records : List Record) :
    (total = 0 →
      mainEffects taxid timestamp total records =
        [Effect.printLine "Not found", Effect.exitWith 0]) ∧
    (total ≠ 0 → records = [] →
      mainEffects taxid timestamp total records =
        [Effect.printLine "Download failed", Effect.exitWith 1] ∧
      (1 : Nat) ≠ 0) ∧
    (total ≠ 0 → records ≠ [] →
      mainEffects taxid timestamp total records =
        [Effect.writeCsvFile
          ("taxid_" ++ taxid ++ "_" ++ timestamp ++ ".csv")
          (write_csv_rows records),
         Effect.printLine ("CSV report saved -> " ++
          ("taxid_" ++ taxid ++ "_" ++ timestamp ++ ".csv")),
         Effect.writePlotFile
          ("taxid_" ++ taxid ++ "_" ++ timestamp ++ ".png")
          (plot_lengths_data records).1 (plot_lengths_data records).2,
         Effect.printLine ("Length plot saved -> " ++
          ("taxid_" ++ taxid ++ "_" ++ timestamp ++ ".png") ++ "\n")]) := by
  refine ⟨fun h => by simp [mainEffects, h], fun h hr => ?_, fun h hr => ?_⟩
  · exact ⟨by simp [mainEffects, h, hr], by decide⟩
  · simp [mainEffects, h, hr]

/-- Witness for C10: the three branches at concrete inputs. -/
theorem claim10_main_exit_witness :
    mainEffects "9606" "20250101_000000" 0 [] =
      [Effect.printLine "Not found", Effect.exitWith 0] ∧
    (mainEffects "9606" "20250101_000000" 5 [] =
      [Effect.printLine "Download failed", Effect.exitWith 1] ∧
      (1 : Nat) ≠ 0) ∧
    mainEffects "9606" "20250101_000000" 5 [⟨"AB000001.1", 3, "demo"⟩] =
      [Effect.writeCsvFile
        ("taxid_" ++ "9606" ++ "_" ++ "20250101_000000" ++ ".csv")
        (write_csv_rows [⟨"AB000001.1", 3, "demo"⟩]),
       Effect.printLine ("CSV report saved -> " ++
        ("taxid_" ++ "9606" ++ "_" ++ "20250101_000000" ++ ".csv")),
       Effect.writePlotFile
        ("taxid_" ++ "9606" ++ "_" ++ "20250101_000000" ++ ".png")
        (plot_lengths_data [⟨"AB000001.1", 3, "demo"⟩]).1
        (plot_lengths_data [⟨"AB000001.1", 3, "demo"⟩]).2,
       Effect.printLine ("Length plot saved -> " ++
        ("taxid_" ++ "9606" ++ "_" ++ "20250101_000000" ++ ".png") ++
          "\n")] :=
  ⟨(claim10_main_exit "9606" "20250101_000000" 0 []).1 rfl,
   (claim10_main_exit "9606" "20250101_000000" 5 []).2.1 (by decide) rfl,
   (claim10_main_exit "9606" "20250101_000000" 5
      [⟨"AB000001.1", 3, "demo"⟩]).2.2 (by decide) (by simp)⟩

end PBIO2
